import Mathlib

/-!
Verification of `torchtitan/utils.py`.

The file is embedded shallowly. The process environment (`os.environ`) is an
association list in which a fresh binding shadows older ones, so lookup sees
the most recent write (last-writer-wins). Side effects of the functions
(logger warnings, environment writes, directory creation, process-group
initialization, barriers, device synchronization, timeout mutation) are
recorded as an explicit trace of events, appended in program order, so that
ordering claims become claims about the trace.
-/

namespace TorchtitanUtils

/-- The process environment, newest binding first; `envGet` sees the newest. -/
abbrev EnvT := List (String × String)

/-- Lookup in the environment: the value of the most recent write to `k`. -/
def envGet (e : EnvT) (k : String) : Option String :=
  (e.find? (fun p => p.1 == k)).map (fun p => p.2)

/-- `os.environ[k] = v`: the new binding shadows any older one. -/
def envSet (e : EnvT) (k v : String) : EnvT := (k, v) :: e

/-- One observable side effect of the code, in program order. -/
inductive Event
  | warn (env old val : String)
  | setEnv (env val : String)
  | makedirs (dir : String)
  | initProcessGroup (backend : String) (timeoutSeconds : Int)
  | logInfo
  | barrier
  | cudaSynchronize
  | setPgTimeout (timeoutSeconds : Int) (group : Option Nat)
  deriving DecidableEq, Repr

/-- Is this event a logger warning? -/
def Event.isWarn : Event → Bool
  | .warn _ _ _ => true
  | _ => false

/-- Process-wide state: the environment plus the trace of effects so far. -/
structure St where
  env : EnvT
  events : List Event
  deriving Repr

/-- Record an effect that does not touch the environment. -/
def emit (s : St) (e : Event) : St := { s with events := s.events ++ [e] }

/-- `os.environ[k] = v`, recorded in the trace. -/
def setenvTraced (s : St) (k v : String) : St :=
  { env := envSet s.env k v, events := s.events ++ [Event.setEnv k v] }

/-- `_warn_overwrite_env(env, val)` (utils.py lines 26-31): if `env` is
present in `os.environ` a warning naming the present value and `val` is
logged; then `os.environ[env] = val` unconditionally. -/
def _warn_overwrite_env (s : St) (env val : String) : St :=
  let s1 :=
    match envGet s.env env with
    | some old => emit s (Event.warn env old val)
    | none => s
  setenvTraced s1 env val

/-- `TRACE_BUFFER_SIZE` constant (utils.py line 63). -/
def TRACE_BUFFER_SIZE : String := "TORCH_NCCL_TRACE_BUFFER_SIZE"

/-- `TRACE_FILE` constant (utils.py line 64). -/
def TRACE_FILE : String := "TORCH_NCCL_DEBUG_INFO_TEMP_FILE"

/-- `DUMP_ON_TIMEOUT` constant (utils.py line 65). -/
def DUMP_ON_TIMEOUT : String := "TORCH_NCCL_DUMP_ON_TIMEOUT"

/-- `ASYNC_ERROR_HANDLING` constant (utils.py line 66). -/
def ASYNC_ERROR_HANDLING : String := "TORCH_NCCL_ASYNC_ERROR_HANDLING"

/-- `SKIP_CLEANUP` constant (utils.py line 67). -/
def SKIP_CLEANUP : String := "3"

/-- The `job_config.comm` section: fields read by `init_distributed`. -/
structure CommConfig where
  trace_buf_size : Int
  init_timeout_seconds : Int
  deriving Repr

/-- The `job_config.job` section: fields read by `init_distributed`. -/
structure JobFolderConfig where
  dump_folder : String
  deriving Repr

/-- The job configuration object passed to `init_distributed`. -/
structure JobConfig where
  comm : CommConfig
  job : JobFolderConfig
  deriving Repr

/-- `init_distributed(job_config)` (utils.py lines 70-93), effect for effect:
warn-guarded writes of `ASYNC_ERROR_HANDLING` and `TRACE_BUFFER_SIZE`; when
`trace_buf_size > 0` also warn-guarded writes of `DUMP_ON_TIMEOUT` and
`TRACE_FILE` around `os.makedirs`; then `init_process_group("nccl", ...)`;
finally a direct (unguarded) write of `TORCH_NCCL_AVOID_RECORD_STREAMS`. -/
def init_distributed (job_config : JobConfig) (s : St) : St :=
  let s := _warn_overwrite_env s ASYNC_ERROR_HANDLING SKIP_CLEANUP
  let s := _warn_overwrite_env s TRACE_BUFFER_SIZE (toString job_config.comm.trace_buf_size)
  let s :=
    if job_config.comm.trace_buf_size > 0 then
      let s := _warn_overwrite_env s DUMP_ON_TIMEOUT "1"
      let dump_dir := job_config.job.dump_folder ++ "/comm_trace"
      let s := emit s (Event.makedirs dump_dir)
      _warn_overwrite_env s TRACE_FILE (dump_dir ++ "/rank_")
    else s
  let s := emit s (Event.initProcessGroup "nccl" job_config.comm.init_timeout_seconds)
  setenvTraced s "TORCH_NCCL_AVOID_RECORD_STREAMS" "1"

/-- A device mesh: its dimensionality and the process groups backing it, one
group per mesh dimension (so `groups.length = ndim`, as in the runtime).
`get_group()` on a 1-D mesh yields the single group; on an N-D mesh it
yields the whole list. Groups are named by numbers; `none` stands for the
default (world) group. -/
structure DeviceMesh where
  ndim : Nat
  groups : List Nat
  ndim_eq : groups.length = ndim

/-- `set_pg_timeouts(timeout, world_mesh)` (utils.py lines 34-60) as its
trace: `logger.info`, then `torch.distributed.barrier()`, then
`torch.cuda.synchronize()`, then one `_set_pg_timeout` per mesh group
(the single group when the mesh is 1-D, every group otherwise) and one for
the appended `None` (the default group). -/
def set_pg_timeouts (timeout : Int) (world_mesh : DeviceMesh) : List Event :=
  Event.logInfo :: Event.barrier :: Event.cudaSynchronize ::
    (let groups :=
      if world_mesh.ndim = 1 then [world_mesh.groups.headD 0] else world_mesh.groups
     (groups.map some ++ [none]).map (fun g => Event.setPgTimeout timeout g))

/-- A Python value returned by the reduction helpers: either a plain numeric
scalar, or a 0-dimensional tensor wrapping one. Numbers are modelled as
rationals so that the average is exact. -/
inductive PyObj
  | scalar (v : Rat)
  | tensor (v : Rat)
  deriving DecidableEq, Repr

/-- The reduction mode passed to `funcol.all_reduce`. -/
inductive ReduceOpName
  | MAX
  | AVG
  deriving DecidableEq, Repr

/-- `funcol.all_reduce` group-level semantics: given the scalars submitted by
the participants of the group (one entry per rank), the reduced value every
rank receives, wrapped in a tensor as the runtime returns it. -/
def all_reduce (xs : List Rat) (op : ReduceOpName) : Rat :=
  match op with
  | ReduceOpName.MAX => xs.foldl max (xs.headD 0)
  | ReduceOpName.AVG => xs.sum / (xs.length : Rat)

/-- `dist_max(x, mesh)` (utils.py lines 16-18) in SPMD group-level form:
`xs` lists the scalar `x` each participant passes; the call wraps the scalar
in a tensor and returns the result of `funcol.all_reduce(..., MAX, ...)`
directly — a tensor, with no `.item()` extraction. -/
def dist_max (xs : List Rat) : PyObj := PyObj.tensor (all_reduce xs ReduceOpName.MAX)

/-- `dist_mean(x, mesh)` (utils.py lines 21-23): as `dist_max` but with the
AVG reduction; again the tensor from `funcol.all_reduce` is returned as is. -/
def dist_mean (xs : List Rat) : PyObj := PyObj.tensor (all_reduce xs ReduceOpName.AVG)

/-- One model parameter: its element count and trainability flag. -/
structure Param where
  numel : Nat
  requires_grad : Bool
  deriving DecidableEq, Repr

/-- `get_num_params(model, only_trainable)` (utils.py lines 96-105); the
model is represented by its list of parameters. -/
def get_num_params (params : List Param) (only_trainable : Bool) : Nat :=
  let param_list := params
  let param_list :=
    if only_trainable then param_list.filter (fun p => p.requires_grad) else param_list
  (param_list.map (fun p => p.numel)).sum

/-- The model configuration fields read by `get_num_flop_per_token`. -/
structure ModelConfig where
  n_layers : Int
  n_heads : Int
  dim : Int
  deriving DecidableEq, Repr

/-- `get_num_flop_per_token(num_params, model_config, seq_len)` (utils.py
lines 108-116). Python `//` is floor division and raises
`ZeroDivisionError` when `n_heads = 0`, embedded as `Int.fdiv` under an
`Option` that is `none` exactly on the zero divisor. -/
def get_num_flop_per_token (num_params : Int) (model_config : ModelConfig)
    (seq_len : Int) : Option Int :=
  if model_config.n_heads = 0 then none
  else
    let l := model_config.n_layers
    let h := model_config.n_heads
    let q := Int.fdiv model_config.dim model_config.n_heads
    let t := seq_len
    some (6 * num_params + 12 * l * h * q * t)

/-- Python `sub in s` on strings: `sub` occurs contiguously in `s`. -/
def strContains (s sub : String) : Bool :=
  decide (sub.data <:+: s.data)

/-- `get_peak_flops(device_name)` (utils.py lines 120-134). The Python
constants `312e12` etc. are integer-valued floats, written here as the
integers they denote. -/
def get_peak_flops (device_name : String) : Int :=
  if strContains device_name "A100" then 312000000000000
  else if strContains device_name "H100" then
    if strContains device_name "NVL" then 1979000000000000
    else if strContains device_name "PCIe" then 756000000000000
    else 989000000000000
  else 312000000000000

/-- The nine color names of the `Color` / `NoColor` dataclasses. -/
inductive ColorName
  | black
  | red
  | green
  | yellow
  | blue
  | magenta
  | cyan
  | white
  | reset
  deriving DecidableEq, Repr

/-- The frozen `Color` dataclass (utils.py lines 137-147): each field is an
ANSI escape sequence; Python `"\033"` is the escape character `0x1B`. -/
def Color : ColorName → String
  | ColorName.black => "\x1b[30m"
  | ColorName.red => "\x1b[31m"
  | ColorName.green => "\x1b[32m"
  | ColorName.yellow => "\x1b[33m"
  | ColorName.blue => "\x1b[34m"
  | ColorName.magenta => "\x1b[35m"
  | ColorName.cyan => "\x1b[36m"
  | ColorName.white => "\x1b[37m"
  | ColorName.reset => "\x1b[39m"

/-- The frozen `NoColor` dataclass (utils.py lines 150-160): every field is
the empty string. -/
def NoColor : ColorName → String := fun _ => ""

/-- The warning `_warn_overwrite_env` logs for a given prior lookup result:
one `warn` event naming the old and the new value when the variable was
present, nothing when it was absent. -/
def warnOpt (e v : String) : Option String → List Event
  | some old => [Event.warn e old v]
  | none => []

/-! Helper lemmas about the environment and the trace. -/

theorem envGet_envSet_self (en : EnvT) (k v : String) :
    envGet (envSet en k v) k = some v := by
  simp [envGet, envSet]

theorem envGet_envSet_ne (en : EnvT) (k k2 v : String) (h : (k == k2) = false) :
    envGet (envSet en k v) k2 = envGet en k2 := by
  simp [envGet, envSet, List.find?, h]

theorem warn_overwrite_env_eq (s : St) (e v : String) :
    _warn_overwrite_env s e v =
      ⟨envSet s.env e v,
       s.events ++ (warnOpt e v (envGet s.env e) ++ [Event.setEnv e v])⟩ := by
  unfold _warn_overwrite_env setenvTraced emit warnOpt
  cases envGet s.env e <;> simp

theorem seg_self {α : Type} (l : List α) : l <:+: l := ⟨[], [], by simp⟩

theorem seg_app_left {α : Type} {l a : List α} (b : List α) (h : l <:+: a) :
    l <:+: a ++ b := by
  obtain ⟨s, t, hst⟩ := h
  exact ⟨s, t ++ b, by rw [← hst]; simp⟩

theorem seg_app_right {α : Type} {l b : List α} (a : List α) (h : l <:+: b) :
    l <:+: a ++ b := by
  obtain ⟨s, t, hst⟩ := h
  exact ⟨a ++ s, t, by rw [← hst]; simp⟩

/-! Claim theorems. -/

/-- C8: `get_num_params(model, only_trainable=False)` is the sum of all
element counts, `get_num_params(model, only_trainable=True)` the sum over
exactly the trainable parameters (the embedding is a pure function); for
sizes `[10, 20, 5]` with the third non-trainable the counts are 35 and 30. -/
theorem claim_C8_get_num_params :
    (∀ ps : List Param,
        get_num_params ps false = (ps.map (fun p => p.numel)).sum
      ∧ get_num_params ps true =
          ((ps.filter (fun p => p.requires_grad)).map (fun p => p.numel)).sum)
  ∧ get_num_params [⟨10, true⟩, ⟨20, true⟩, ⟨5, false⟩] false = 35
  ∧ get_num_params [⟨10, true⟩, ⟨20, true⟩, ⟨5, false⟩] true = 30 :=
  ⟨fun _ => ⟨rfl, rfl⟩, by decide, by decide⟩

/-- C9: for each of the nine color names, `NoColor` yields the empty string
and `Color` yields a non-empty string whose first character is the ASCII
escape character `0x1B`; both maps are fixed constants. -/
theorem claim_C9_color_palettes :
    ∀ c : ColorName,
      NoColor c = ""
      ∧ Color c ≠ ""
      ∧ (Color c).data.head? = some (Char.ofNat 27) := by
  intro c
  cases c <;> exact ⟨rfl, by decide, by decide⟩

/-- C6: `get_num_flop_per_token` returns exactly
`6*num_params + 12*l*h*(dim // h)*t` whenever `n_heads > 0`, and at
`num_params = 1000, l = 2, h = 4, dim = 16, t = 128` it returns
`6*1000 + 12*2*4*4*128`. -/
theorem claim_C6_flop_formula :
    (∀ (p : Int) (mc : ModelConfig) (t : Int), 0 < mc.n_heads →
        get_num_flop_per_token p mc t =
          some (6 * p + 12 * mc.n_layers * mc.n_heads * Int.fdiv mc.dim mc.n_heads * t))
  ∧ get_num_flop_per_token 1000 ⟨2, 4, 16⟩ 128 = some (6 * 1000 + 12 * 2 * 4 * 4 * 128) := by
  constructor
  · intro p mc t h
    have hne : ¬ mc.n_heads = 0 := by omega
    simp [get_num_flop_per_token, hne]
  · decide

/-- C6 witness: the general formula instantiated at the concrete input of
the claim, with `0 < 4` discharged. -/
theorem claim_C6_witness :
    get_num_flop_per_token 1000 ⟨2, 4, 16⟩ 128 =
      some (6 * 1000 + 12 * 2 * 4 * Int.fdiv 16 4 * 128) :=
  claim_C6_flop_formula.1 1000 ⟨2, 4, 16⟩ 128 (by decide)

/-- C10: the head dimension is the floor division `dim // n_heads`: the
function fails (raises, embedded as `none`) exactly on `n_heads = 0`, is
defined for `n_heads > 0`, and for `dim = 10, n_heads = 3` it uses
`10 // 3 = 3`, not an exact quotient. -/
theorem claim_C10_floor_division :
    (∀ (p : Int) (mc : ModelConfig) (t : Int), mc.n_heads = 0 →
        get_num_flop_per_token p mc t = none)
  ∧ (∀ (p : Int) (mc : ModelConfig) (t : Int), 0 < mc.n_heads →
        get_num_flop_per_token p mc t =
          some (6 * p + 12 * mc.n_layers * mc.n_heads * Int.fdiv mc.dim mc.n_heads * t))
  ∧ Int.fdiv 10 3 = 3
  ∧ get_num_flop_per_token 0 ⟨1, 3, 10⟩ 1 = some (12 * 1 * 3 * 3 * 1) := by
  refine ⟨?_, ?_, by decide, by decide⟩
  · intro p mc t h
    simp [get_num_flop_per_token, h]
  · intro p mc t h
    have hne : ¬ mc.n_heads = 0 := by omega
    simp [get_num_flop_per_token, hne]

/-- C10 witness: the zero-head failure and the positive-head formula at
concrete inputs. -/
theorem claim_C10_witness :
    get_num_flop_per_token 7 ⟨1, 0, 16⟩ 2 = none
  ∧ get_num_flop_per_token 7 ⟨2, 5, 16⟩ 2 =
      some (6 * 7 + 12 * 2 * 5 * Int.fdiv 16 5 * 2) :=
  ⟨claim_C10_floor_division.1 7 ⟨1, 0, 16⟩ 2 rfl,
   claim_C10_floor_division.2.1 7 ⟨2, 5, 16⟩ 2 (by decide)⟩

/-- C7: `get_peak_flops` is total and selects by substring match with
`"A100"` tried before `"H100"` and, within `"H100"`, `"NVL"` before
`"PCIe"` before the SXM/other default; unknown names silently fall back to
the A100 constant; the five concrete lookups of the spec hold. -/
theorem claim_C7_get_peak_flops :
    (∀ s : String,
        (strContains s "A100" = true → get_peak_flops s = 312000000000000)
      ∧ (strContains s "A100" = false → strContains s "H100" = true →
           strContains s "NVL" = true → get_peak_flops s = 1979000000000000)
      ∧ (strContains s "A100" = false → strContains s "H100" = true →
           strContains s "NVL" = false → strContains s "PCIe" = true →
           get_peak_flops s = 756000000000000)
      ∧ (strContains s "A100" = false → strContains s "H100" = true →
           strContains s "NVL" = false → strContains s "PCIe" = false →
           get_peak_flops s = 989000000000000)
      ∧ (strContains s "A100" = false → strContains s "H100" = false →
           get_peak_flops s = 312000000000000))
  ∧ get_peak_flops "A100" = 312000000000000
  ∧ get_peak_flops "H100 SXM" = 989000000000000
  ∧ get_peak_flops "H100 NVL" = 1979000000000000
  ∧ get_peak_flops "H100 PCIe" = 756000000000000
  ∧ get_peak_flops "unknown-device" = 312000000000000 := by
  refine ⟨fun s => ⟨?_, ?_, ?_, ?_, ?_⟩, by decide, by decide, by decide, by decide, by decide⟩
  · intro h1
    simp [get_peak_flops, h1]
  · intro h1 h2 h3
    simp [get_peak_flops, h1, h2, h3]
  · intro h1 h2 h3 h4
    simp [get_peak_flops, h1, h2, h3, h4]
  · intro h1 h2 h3 h4
    simp [get_peak_flops, h1, h2, h3, h4]
  · intro h1 h2
    simp [get_peak_flops, h1, h2]

/-- C7 witness: the branch conditions discharged on concrete device names,
including a name holding both `"A100"` and `"H100"` to exhibit the
precedence of the `"A100"` branch. -/
theorem claim_C7_witness :
    get_peak_flops "A100 H100 NVL" = 312000000000000
  ∧ get_peak_flops "X H100 NVL" = 1979000000000000
  ∧ get_peak_flops "X H100 PCIe" = 756000000000000
  ∧ get_peak_flops "X H100 Y" = 989000000000000
  ∧ get_peak_flops "B200" = 312000000000000 :=
  ⟨(claim_C7_get_peak_flops.1 "A100 H100 NVL").1 (by decide),
   (claim_C7_get_peak_flops.1 "X H100 NVL").2.1 (by decide) (by decide) (by decide),
   (claim_C7_get_peak_flops.1 "X H100 PCIe").2.2.1 (by decide) (by decide) (by decide)
     (by decide),
   (claim_C7_get_peak_flops.1 "X H100 Y").2.2.2.1 (by decide) (by decide) (by decide)
     (by decide),
   (claim_C7_get_peak_flops.1 "B200").2.2.2.2 (by decide) (by decide)⟩

/-- C3 (code evaluated at the failing input): with a one-rank group
submitting `x = 3`, `dist_max` and `dist_mean` return the correctly reduced
value but wrapped as the tensor that `funcol.all_reduce` produces — never a
plain scalar, contradicting the claim and the functions' own `-> float`
annotations; `dist_mean` over `[1, 2, 3]` likewise returns a tensor holding
the exact average 2. -/
theorem claim_C3_returns_tensor :
    dist_max [3] = PyObj.tensor 3
  ∧ dist_mean [3] = PyObj.tensor 3
  ∧ dist_mean [1, 2, 3] = PyObj.tensor 2
  ∧ (∀ v, dist_max [3] ≠ PyObj.scalar v)
  ∧ (∀ v, dist_mean [3] ≠ PyObj.scalar v) := by
  refine ⟨?_, ?_, ?_, ?_, ?_⟩
  · simp [dist_max, all_reduce]
  · norm_num [dist_mean, all_reduce]
  · norm_num [dist_mean, all_reduce]
  · intro v h
    simp [dist_max, all_reduce] at h
  · intro v h
    simp [dist_mean, all_reduce] at h

/-- C1 counterexample: with `FOO` already set to `"1"`, the call
`_warn_overwrite_env("FOO", "1")` writes the same value back — yet it still
logs a warning, because the code tests only membership in `os.environ`,
never whether the present value differs; this refutes the claim that a
warning occurs exactly when the prior value differs from the new one. -/
theorem claim_C1_counterexample :
    envGet [("FOO", "1")] "FOO" = some "1"
  ∧ (_warn_overwrite_env ⟨[("FOO", "1")], []⟩ "FOO" "1").events
      = [Event.warn "FOO" "1" "1", Event.setEnv "FOO" "1"]
  ∧ ((_warn_overwrite_env ⟨[("FOO", "1")], []⟩ "FOO" "1").events.filter
        Event.isWarn) ≠ [] := by
  refine ⟨rfl, rfl, by decide⟩

/-- C1 (amended): `_warn_overwrite_env(env, val)` logs one warning naming
the old value and `val` exactly when `env` is already set — to any prior
value, including `val` itself — and in every case afterwards the
environment maps `env` to `val`; a second call always finds the variable
set, so it logs exactly one further warning naming the first value and the
second, and the final value is the last value set. -/
theorem claim_C1_warn_overwrite_env (env0 : EnvT) (e v : String) :
    envGet (_warn_overwrite_env ⟨env0, []⟩ e v).env e = some v
  ∧ (_warn_overwrite_env ⟨env0, []⟩ e v).events
      = warnOpt e v (envGet env0 e) ++ [Event.setEnv e v]
  ∧ (∀ v2 : String,
        envGet (_warn_overwrite_env (_warn_overwrite_env ⟨env0, []⟩ e v) e v2).env e
          = some v2
      ∧ (_warn_overwrite_env (_warn_overwrite_env ⟨env0, []⟩ e v) e v2).events
          = (_warn_overwrite_env ⟨env0, []⟩ e v).events
              ++ [Event.warn e v v2, Event.setEnv e v2]) := by
  refine ⟨?_, ?_, ?_⟩
  · rw [warn_overwrite_env_eq]
    exact envGet_envSet_self env0 e v
  · rw [warn_overwrite_env_eq]
    simp
  · intro v2
    constructor
    · rw [warn_overwrite_env_eq, warn_overwrite_env_eq]
      exact envGet_envSet_self _ e v2
    · conv_lhs => rw [warn_overwrite_env_eq (_warn_overwrite_env ⟨env0, []⟩ e v) e v2]
      rw [warn_overwrite_env_eq ⟨env0, []⟩ e v]
      simp [envGet_envSet_self, warnOpt]

/-- C4: the trace of `set_pg_timeouts` is the info log, then the barrier,
then the device synchronization, and only then the timeout mutations — one
per mesh group (by `ndim_eq`, the single group when the mesh is 1-D) and a
final one for the default group `None`; no `setPgTimeout` event occurs at a
position at or before the barrier and the synchronization. -/
theorem claim_C4_set_pg_timeouts_order (timeout : Int) (m : DeviceMesh) :
    set_pg_timeouts timeout m =
      Event.logInfo :: Event.barrier :: Event.cudaSynchronize ::
        (m.groups.map (fun g => Event.setPgTimeout timeout (some g))
          ++ [Event.setPgTimeout timeout none])
  ∧ (∀ i t2 g, (set_pg_timeouts timeout m).get? i
        = some (Event.setPgTimeout t2 g) → 2 < i) := by
  have h1 : set_pg_timeouts timeout m =
      Event.logInfo :: Event.barrier :: Event.cudaSynchronize ::
        (m.groups.map (fun g => Event.setPgTimeout timeout (some g))
          ++ [Event.setPgTimeout timeout none]) := by
    unfold set_pg_timeouts
    by_cases h : m.ndim = 1
    · have hl : m.groups.length = 1 := by rw [m.ndim_eq, h]
      obtain ⟨a, ha⟩ := List.length_eq_one.mp hl
      rw [ha]
      simp [h]
    · simp [h]
  refine ⟨h1, ?_⟩
  intro i t2 g hi
  rw [h1] at hi
  rcases i with _ | _ | _ | n
  · simp [List.get?] at hi
  · simp [List.get?] at hi
  · simp [List.get?] at hi
  · omega

/-- C4 witness: the trace of a 2-D mesh with groups 10 and 11 at timeout 5,
and the position bound discharged at index 3, which holds the first
timeout mutation. -/
theorem claim_C4_witness :
    set_pg_timeouts 5 ⟨2, [10, 11], rfl⟩ =
      Event.logInfo :: Event.barrier :: Event.cudaSynchronize ::
        ([Event.setPgTimeout 5 (some 10), Event.setPgTimeout 5 (some 11)]
          ++ [Event.setPgTimeout 5 none])
  ∧ 2 < 3 :=
  ⟨(claim_C4_set_pg_timeouts_order 5 ⟨2, [10, 11], rfl⟩).1,
   (claim_C4_set_pg_timeouts_order 5 ⟨2, [10, 11], rfl⟩).2 3 5 (some 10) rfl⟩

theorem filter_warnOpt (e v : String) (o : Option String) :
    (warnOpt e v o).filter (fun x => !x.isWarn) = [] := by
  cases o <;> simp [warnOpt, Event.isWarn]

theorem append_pair_split {α : Type} (l : List α) (a b : α) :
    l ++ [a, b] = (l ++ [a]) ++ [b] := by simp

/-- The full trace of `init_distributed` run from a trace-empty state over
an arbitrary starting environment: each `_warn_overwrite_env` contributes
its optional warning and its write, the `trace_buf_size > 0` branch
contributes the dump configuration, and the tail is the process-group
start followed by the direct write of the memory-mitigation flag. -/
theorem init_distributed_events_eq (cfg : JobConfig) (env0 : EnvT) :
    (init_distributed cfg ⟨env0, []⟩).events =
      (warnOpt ASYNC_ERROR_HANDLING SKIP_CLEANUP (envGet env0 ASYNC_ERROR_HANDLING)
          ++ [Event.setEnv ASYNC_ERROR_HANDLING SKIP_CLEANUP])
      ++ (warnOpt TRACE_BUFFER_SIZE (toString cfg.comm.trace_buf_size)
            (envGet env0 TRACE_BUFFER_SIZE)
          ++ [Event.setEnv TRACE_BUFFER_SIZE (toString cfg.comm.trace_buf_size)])
      ++ (if cfg.comm.trace_buf_size > 0 then
            (warnOpt DUMP_ON_TIMEOUT "1" (envGet env0 DUMP_ON_TIMEOUT)
              ++ [Event.setEnv DUMP_ON_TIMEOUT "1"])
            ++ [Event.makedirs (cfg.job.dump_folder ++ "/comm_trace")]
            ++ (warnOpt TRACE_FILE (cfg.job.dump_folder ++ "/comm_trace" ++ "/rank_")
                  (envGet env0 TRACE_FILE)
                ++ [Event.setEnv TRACE_FILE
                      (cfg.job.dump_folder ++ "/comm_trace" ++ "/rank_")])
          else [])
      ++ [Event.initProcessGroup "nccl" cfg.comm.init_timeout_seconds,
          Event.setEnv "TORCH_NCCL_AVOID_RECORD_STREAMS" "1"] := by
  have hAB : (ASYNC_ERROR_HANDLING == TRACE_BUFFER_SIZE) = false := by decide
  have hAD : (ASYNC_ERROR_HANDLING == DUMP_ON_TIMEOUT) = false := by decide
  have hAT : (ASYNC_ERROR_HANDLING == TRACE_FILE) = false := by decide
  have hBD : (TRACE_BUFFER_SIZE == DUMP_ON_TIMEOUT) = false := by decide
  have hBT : (TRACE_BUFFER_SIZE == TRACE_FILE) = false := by decide
  have hDT : (DUMP_ON_TIMEOUT == TRACE_FILE) = false := by decide
  unfold init_distributed
  by_cases hb : cfg.comm.trace_buf_size > 0
  · simp [hb, warn_overwrite_env_eq, emit, setenvTraced,
      envGet_envSet_ne _ _ _ _ hAB, envGet_envSet_ne _ _ _ _ hAD,
      envGet_envSet_ne _ _ _ _ hAT, envGet_envSet_ne _ _ _ _ hBD,
      envGet_envSet_ne _ _ _ _ hBT, envGet_envSet_ne _ _ _ _ hDT]
  · simp [hb, warn_overwrite_env_eq, emit, setenvTraced,
      envGet_envSet_ne _ _ _ _ hAB]

/-- C5: the non-warning side effects of `init_distributed`, in trace order:
the write of `TORCH_NCCL_ASYNC_ERROR_HANDLING` to `"3"`, the write of
`TORCH_NCCL_TRACE_BUFFER_SIZE` to the configured size, then — exactly when
the configured size is positive — the write of `TORCH_NCCL_DUMP_ON_TIMEOUT`
to `"1"`, the creation of `<dump_folder>/comm_trace` and the write of
`TORCH_NCCL_DEBUG_INFO_TEMP_FILE` to `<dump_folder>/comm_trace/rank_`, then
the `"nccl"` process-group start with the configured timeout, and last the
write of `TORCH_NCCL_AVOID_RECORD_STREAMS` to `"1"`. -/
theorem claim_C5_init_distributed_order (cfg : JobConfig) (env0 : EnvT) :
    ((init_distributed cfg ⟨env0, []⟩).events.filter (fun x => !x.isWarn)) =
      [Event.setEnv ASYNC_ERROR_HANDLING SKIP_CLEANUP,
       Event.setEnv TRACE_BUFFER_SIZE (toString cfg.comm.trace_buf_size)]
      ++ (if cfg.comm.trace_buf_size > 0 then
            [Event.setEnv DUMP_ON_TIMEOUT "1",
             Event.makedirs (cfg.job.dump_folder ++ "/comm_trace"),
             Event.setEnv TRACE_FILE (cfg.job.dump_folder ++ "/comm_trace" ++ "/rank_")]
          else [])
      ++ [Event.initProcessGroup "nccl" cfg.comm.init_timeout_seconds,
          Event.setEnv "TORCH_NCCL_AVOID_RECORD_STREAMS" "1"] := by
  rw [init_distributed_events_eq]
  by_cases hb : cfg.comm.trace_buf_size > 0
  · rw [if_pos hb, if_pos hb]
    cases envGet env0 ASYNC_ERROR_HANDLING <;>
      cases envGet env0 TRACE_BUFFER_SIZE <;>
        cases envGet env0 DUMP_ON_TIMEOUT <;>
          cases envGet env0 TRACE_FILE <;>
            simp [warnOpt, Event.isWarn]
  · rw [if_neg hb, if_neg hb]
    cases envGet env0 ASYNC_ERROR_HANDLING <;>
      cases envGet env0 TRACE_BUFFER_SIZE <;>
        simp [warnOpt, Event.isWarn]

/-- C2 counterexample: run `init_distributed` with trace-buffer size 0 and
`TORCH_NCCL_AVOID_RECORD_STREAMS` already set to `"0"`: the variable is
overwritten to `"1"` by a direct `os.environ` assignment and the trace holds
no warning at all, refuting the claim that every variable `init_distributed`
sets is warn-guarded. -/
theorem claim_C2_counterexample :
    envGet [("TORCH_NCCL_AVOID_RECORD_STREAMS", "0")]
        "TORCH_NCCL_AVOID_RECORD_STREAMS" = some "0"
  ∧ (init_distributed ⟨⟨0, 30⟩, ⟨"out"⟩⟩
        ⟨[("TORCH_NCCL_AVOID_RECORD_STREAMS", "0")], []⟩).events
      = [Event.setEnv ASYNC_ERROR_HANDLING SKIP_CLEANUP,
         Event.setEnv TRACE_BUFFER_SIZE "0",
         Event.initProcessGroup "nccl" 30,
         Event.setEnv "TORCH_NCCL_AVOID_RECORD_STREAMS" "1"]
  ∧ envGet (init_distributed ⟨⟨0, 30⟩, ⟨"out"⟩⟩
        ⟨[("TORCH_NCCL_AVOID_RECORD_STREAMS", "0")], []⟩).env
        "TORCH_NCCL_AVOID_RECORD_STREAMS" = some "1" := by
  refine ⟨rfl, ?_, ?_⟩ <;> decide

/-- C2 (amended): every environment write of `init_distributed` except the
final one goes through the warn-then-overwrite contract — whenever one of
`TORCH_NCCL_ASYNC_ERROR_HANDLING`, `TORCH_NCCL_TRACE_BUFFER_SIZE` and, for a
positive trace-buffer size, `TORCH_NCCL_DUMP_ON_TIMEOUT`,
`TORCH_NCCL_DEBUG_INFO_TEMP_FILE` is set before the call, the warning
naming its old and new value is logged immediately before the overwrite —
while `TORCH_NCCL_AVOID_RECORD_STREAMS` is always written as the last
effect with no warn-guard. -/
theorem claim_C2_warn_guard (cfg : JobConfig) (env0 : EnvT) :
    (∀ old, envGet env0 ASYNC_ERROR_HANDLING = some old →
        [Event.warn ASYNC_ERROR_HANDLING old SKIP_CLEANUP,
         Event.setEnv ASYNC_ERROR_HANDLING SKIP_CLEANUP]
          <:+: (init_distributed cfg ⟨env0, []⟩).events)
  ∧ (∀ old, envGet env0 TRACE_BUFFER_SIZE = some old →
        [Event.warn TRACE_BUFFER_SIZE old (toString cfg.comm.trace_buf_size),
         Event.setEnv TRACE_BUFFER_SIZE (toString cfg.comm.trace_buf_size)]
          <:+: (init_distributed cfg ⟨env0, []⟩).events)
  ∧ (cfg.comm.trace_buf_size > 0 →
        ∀ old, envGet env0 DUMP_ON_TIMEOUT = some old →
          [Event.warn DUMP_ON_TIMEOUT old "1", Event.setEnv DUMP_ON_TIMEOUT "1"]
            <:+: (init_distributed cfg ⟨env0, []⟩).events)
  ∧ (cfg.comm.trace_buf_size > 0 →
        ∀ old, envGet env0 TRACE_FILE = some old →
          [Event.warn TRACE_FILE old (cfg.job.dump_folder ++ "/comm_trace" ++ "/rank_"),
           Event.setEnv TRACE_FILE (cfg.job.dump_folder ++ "/comm_trace" ++ "/rank_")]
            <:+: (init_distributed cfg ⟨env0, []⟩).events)
  ∧ (∃ l, (init_distributed cfg ⟨env0, []⟩).events
        = l ++ [Event.setEnv "TORCH_NCCL_AVOID_RECORD_STREAMS" "1"]) := by
  refine ⟨?_, ?_, ?_, ?_, ?_⟩
  · intro old h
    rw [init_distributed_events_eq, h]
    refine seg_app_left _ (seg_app_left _ (seg_app_left _ ?_))
    simp [warnOpt]
  · intro old h
    rw [init_distributed_events_eq, h]
    refine seg_app_left _ (seg_app_left _ (seg_app_right _ ?_))
    simp [warnOpt]
  · intro hb old h
    rw [init_distributed_events_eq, h, if_pos hb]
    refine seg_app_left _ (seg_app_right _
      (seg_app_left _ (seg_app_left _ ?_)))
    simp [warnOpt]
  · intro hb old h
    rw [init_distributed_events_eq, h, if_pos hb]
    refine seg_app_left _ (seg_app_right _ (seg_app_right _ ?_))
    simp [warnOpt]
  · rw [init_distributed_events_eq]
    exact ⟨_, append_pair_split _ _ _⟩

/-- C2 witness: with all four guarded variables pre-set and a positive
trace-buffer size, each warn-then-overwrite pair occurs in the trace of
`init_distributed`; every hypothesis is discharged on this concrete
environment. -/
theorem claim_C2_witness :
    ([Event.warn ASYNC_ERROR_HANDLING "a" SKIP_CLEANUP,
      Event.setEnv ASYNC_ERROR_HANDLING SKIP_CLEANUP]
        <:+: (init_distributed ⟨⟨4, 9⟩, ⟨"d"⟩⟩
            ⟨[(ASYNC_ERROR_HANDLING, "a"), (TRACE_BUFFER_SIZE, "b"),
              (DUMP_ON_TIMEOUT, "c"), (TRACE_FILE, "f")], []⟩).events)
  ∧ ([Event.warn TRACE_BUFFER_SIZE "b" (toString (4 : Int)),
      Event.setEnv TRACE_BUFFER_SIZE (toString (4 : Int))]
        <:+: (init_distributed ⟨⟨4, 9⟩, ⟨"d"⟩⟩
            ⟨[(ASYNC_ERROR_HANDLING, "a"), (TRACE_BUFFER_SIZE, "b"),
              (DUMP_ON_TIMEOUT, "c"), (TRACE_FILE, "f")], []⟩).events)
  ∧ ([Event.warn DUMP_ON_TIMEOUT "c" "1", Event.setEnv DUMP_ON_TIMEOUT "1"]
        <:+: (init_distributed ⟨⟨4, 9⟩, ⟨"d"⟩⟩
            ⟨[(ASYNC_ERROR_HANDLING, "a"), (TRACE_BUFFER_SIZE, "b"),
              (DUMP_ON_TIMEOUT, "c"), (TRACE_FILE, "f")], []⟩).events)
  ∧ ([Event.warn TRACE_FILE "f" ("d" ++ "/comm_trace" ++ "/rank_"),
      Event.setEnv TRACE_FILE ("d" ++ "/comm_trace" ++ "/rank_")]
        <:+: (init_distributed ⟨⟨4, 9⟩, ⟨"d"⟩⟩
            ⟨[(ASYNC_ERROR_HANDLING, "a"), (TRACE_BUFFER_SIZE, "b"),
              (DUMP_ON_TIMEOUT, "c"), (TRACE_FILE, "f")], []⟩).events) :=
  ⟨(claim_C2_warn_guard ⟨⟨4, 9⟩, ⟨"d"⟩⟩ _).1 "a" (by decide),
   (claim_C2_warn_guard ⟨⟨4, 9⟩, ⟨"d"⟩⟩ _).2.1 "b" (by decide),
   (claim_C2_warn_guard ⟨⟨4, 9⟩, ⟨"d"⟩⟩ _).2.2.1 (by decide) "c" (by decide),
   (claim_C2_warn_guard ⟨⟨4, 9⟩, ⟨"d"⟩⟩ _).2.2.2.1 (by decide) "f" (by decide)⟩

end TorchtitanUtils
